import Mathlib

/-!
Verification of the tiered cricket prediction engine
(`server/optimizedPredictor.ts` of the telegram-cricket-bot repository).

The orchestrator (`OptimizedCricketPredictor`) is embedded shallowly:

* Probabilities are modelled as exact rationals (`Rat`); the orchestrator
  itself performs no floating-point arithmetic — it only copies, defaults
  and compares the numbers produced by its providers.
* The Elo rating service and the ML feature service are not part of the
  sources; the orchestrator consumes them behind `try/catch`.  They are
  modelled as abstract `Providers`: functions returning `Except Unit _`
  (an `Except.error` models a thrown exception).
* `Date.now()` is modelled by explicit time parameters: each tier
  invocation receives its entry time `t0` and the elapsed time `dt`
  (so the later `Date.now()` calls inside one invocation return `t0 + dt`).
* The JavaScript `Map` backing the prediction cache is modelled as an
  association list in insertion order (`Map` iteration order):
  `set` of a fresh key appends, `set` of a present key updates in place,
  `delete` removes by key, iteration starts at the head.
* The JavaScript falsy-default `a || b` applied to an optional number is
  modelled by `jsOr`: it yields the default both when the value is absent
  (`undefined`) and when it equals `0`.
-/

namespace TelegramCricketBot

/-- Predicate `startsWithList s p` is true when `p` is an initial segment of `s`
(character-by-character comparison, as JavaScript string search does). -/
def startsWithList : List Char → List Char → Bool
  | _, [] => true
  | [], _ :: _ => false
  | c :: cs, p :: ps => c == p && startsWithList cs ps

/-- Predicate `hasSub s p` is true when `p` occurs contiguously inside `s`;
this models JavaScript `String.prototype.includes`. -/
def hasSub : List Char → List Char → Bool
  | [], pat => pat.isEmpty
  | c :: rest, pat => startsWithList (c :: rest) pat || hasSub rest pat

/-- JavaScript `s.includes(pat)` on strings. -/
def strIncludes (s pat : String) : Bool :=
  hasSub s.toList pat.toList

/-- JavaScript `s.toLowerCase()` (ASCII range), written as a structural
character map. -/
def jsToLower (s : String) : String :=
  String.mk (s.toList.map Char.toLower)

/-- JavaScript `o?.toLowerCase().includes(pat)` on an optional string:
`undefined` is falsy, hence `false`. -/
def optIncludes (o : Option String) (pat : String) : Bool :=
  (o.map fun s => strIncludes (jsToLower s) pat).getD false

/-- JavaScript `x || d` for `x : number | undefined`: the default `d` is
taken when `x` is `undefined` or `0` (both falsy). -/
def jsOr (x : Option Rat) (d : Rat) : Rat :=
  match x with
  | none => d
  | some v => if v = 0 then d else v

/-- Structure `PredictionInput` (from `cricketPredictionFeatures.ts`, as consumed by
the orchestrator): `tournament` and `seriesContext` are optional — the
orchestrator accesses them with `?.`. -/
structure PredictionInput where
  team1Id : String
  team2Id : String
  team1Name : String
  team2Name : String
  venue : String
  format : String
  matchDate : Int
  tournament : Option String
  seriesContext : Option String
deriving DecidableEq

/-- Structure `FastPredictionResult` of `optimizedPredictor.ts`.  The optional
`fromCache` flag is modelled as a `Bool`, `false` for a fresh result. -/
structure FastPredictionResult where
  team1WinProb : Rat
  team2WinProb : Rat
  drawProb : Rat
  confidence : Rat
  keyFactors : List String
  riskFactors : List String
  modelVersion : String
  processingTimeMs : Int
  engineUsed : String
  accuracy : Nat
  fromCache : Bool
deriving DecidableEq

/-- Result of `eloService.calculateWinProbability`; `drawProb` may be
absent (the orchestrator defaults it with `|| 0.02`). -/
structure EloResult where
  team1WinProb : Rat
  team2WinProb : Rat
  drawProb : Option Rat
deriving DecidableEq

/-- The base probabilities the orchestrator hands to
`mlService.generateEnhancedPrediction`. -/
structure BaseProbs where
  team1 : Rat
  team2 : Rat
  draw : Option Rat
deriving DecidableEq

/-- The fields read by the orchestrator from the result of
`mlService.generateEnhancedPrediction`; `enhancedDrawProb` and `confidenceLevel` are defaulted
with `||`, hence optional. -/
structure EnhancedResult where
  enhancedTeam1WinProb : Rat
  enhancedTeam2WinProb : Rat
  enhancedDrawProb : Option Rat
  confidenceLevel : Option Rat
  modelVersion : String
deriving DecidableEq

/-- The two collaborators the orchestrator calls behind `try/catch`;
`Except.error ()` models a thrown exception. -/
structure Providers where
  elo : String → String → String → Except Unit EloResult
  ml : PredictionInput → BaseProbs → Except Unit EnhancedResult

namespace OptimizedCricketPredictor

/-- Constant `CACHE_TTL = 5 * 60 * 1000` milliseconds. -/
def CACHE_TTL : Int := 5 * 60 * 1000

/-- One entry of `predictionCache`. -/
structure CacheEntry where
  result : FastPredictionResult
  timestamp : Int
deriving DecidableEq

/-- The `predictionCache : Map<string, CacheEntry>` in insertion order. -/
abbrev Cache := List (String × CacheEntry)

/-- JavaScript `Map.get`. -/
def mapGet (m : Cache) (k : String) : Option CacheEntry :=
  (m.find? fun p => p.1 == k).map fun p => p.2

/-- JavaScript `Map.set`: update in place when the key is present
(keeping its position in iteration order), append otherwise. -/
def mapSet (m : Cache) (k : String) (v : CacheEntry) : Cache :=
  if m.any fun p => p.1 == k then
    m.map fun p => if p.1 == k then (k, v) else p
  else
    m ++ [(k, v)]

/-- JavaScript `Map.delete`. -/
def mapDelete (m : Cache) (k : String) : Cache :=
  m.filter fun p => p.1 != k

/-- The cache key of the fast tier, ``fast_${team1Id}_${team2Id}_${format}``. -/
def fastKey (input : PredictionInput) : String :=
  "fast_" ++ input.team1Id ++ "_" ++ input.team2Id ++ "_" ++ input.format

/-- The cache key of the balanced tier,
``balanced_${team1Id}_${team2Id}_${format}_${venue}``. -/
def balancedKey (input : PredictionInput) : String :=
  "balanced_" ++ input.team1Id ++ "_" ++ input.team2Id ++ "_" ++ input.format
    ++ "_" ++ input.venue

/-- Operation `getCachedPrediction`, `now` being the value of `Date.now()` at the
lookup: a present entry is returned (marked `fromCache`) only while
strictly younger than `CACHE_TTL`; anything else is a miss. -/
def getCachedPrediction (cache : Cache) (key : String) (now : Int) :
    Option FastPredictionResult :=
  match mapGet cache key with
  | some cached =>
      if now - cached.timestamp < CACHE_TTL then
        some { cached.result with fromCache := true }
      else
        none
  | none => none

/-- Operation `cacheResult`, `now` being `Date.now()` at insertion time: store the
entry, then if the map has grown past 100 entries delete the first key in
iteration order. -/
def cacheResult (cache : Cache) (key : String) (result : FastPredictionResult)
    (now : Int) : Cache :=
  let c := mapSet cache key ⟨result, now⟩
  if 100 < c.length then
    match c.head? with
    | some oldest => mapDelete c oldest.1
    | none => c
  else
    c

/-- The result object built by `generateFastPrediction` on Elo success
(`dt` is the elapsed `Date.now() - startTime`). -/
def mkFastResult (input : PredictionInput) (eloResult : EloResult)
    (dt : Int) : FastPredictionResult :=
  { team1WinProb := eloResult.team1WinProb
    team2WinProb := eloResult.team2WinProb
    drawProb := jsOr eloResult.drawProb 0.02
    confidence := 0.75
    keyFactors := ["Team strength (Elo ratings)", "Historical performance"]
    riskFactors :=
      if input.format = "test" then ["Weather dependency", "Match duration"]
      else []
    modelVersion := "fast-v1.0"
    processingTimeMs := dt
    engineUsed := "Elo Rating System"
    accuracy :=
      if input.format = "t20" then 78 else if input.format = "odi" then 75 else 72
    fromCache := false }

/-- The result object built by `generateBalancedPrediction` on success of
both providers. -/
def mkBalancedResult (input : PredictionInput) (enhancedResult : EnhancedResult)
    (dt : Int) : FastPredictionResult :=
  { team1WinProb := enhancedResult.enhancedTeam1WinProb
    team2WinProb := enhancedResult.enhancedTeam2WinProb
    drawProb := jsOr enhancedResult.enhancedDrawProb 0.02
    confidence := jsOr enhancedResult.confidenceLevel 0.82
    keyFactors := ["Team strength", "Venue factors", "Recent form", "Player analysis"]
    riskFactors := []
    modelVersion := enhancedResult.modelVersion
    processingTimeMs := dt
    engineUsed := "Elo + ML Ensemble"
    accuracy :=
      if input.format = "t20" then 82 else if input.format = "odi" then 79 else 75
    fromCache := false }

/-- Operation `generateBasicFallback`: the static last-resort estimate. -/
def generateBasicFallback (input : PredictionInput) (processingTime : Int) :
    FastPredictionResult :=
  { team1WinProb := 0.52
    team2WinProb := 0.46
    drawProb := 0.02
    confidence := 0.60
    keyFactors := ["Basic statistical analysis"]
    riskFactors := ["Limited data available", "Fallback prediction"]
    modelVersion := "fallback-v1.0"
    processingTimeMs := processingTime
    engineUsed := "Basic Fallback"
    accuracy := 65
    fromCache := false }

/-- Operation `generateFastPrediction`: cache lookup, then Elo only; on an Elo
exception, the static fallback.  Returns the result together with the
cache state after the call. -/
def generateFastPrediction (P : Providers) (cache : Cache)
    (input : PredictionInput) (t0 dt : Int) : FastPredictionResult × Cache :=
  match getCachedPrediction cache (fastKey input) t0 with
  | some cached => (cached, cache)
  | none =>
    match P.elo input.team1Id input.team2Id input.format with
    | Except.ok eloResult =>
        let result := mkFastResult input eloResult dt
        (result, cacheResult cache (fastKey input) result (t0 + dt))
    | Except.error _ => (generateBasicFallback input dt, cache)

/-- Operation `generateBalancedPrediction`: cache lookup, Elo, then ML enhancement;
any provider exception falls back to `generateFastPrediction` (which runs
at its own entry time `t0f` with elapsed time `dtf`). -/
def generateBalancedPrediction (P : Providers) (cache : Cache)
    (input : PredictionInput) (t0 dt t0f dtf : Int) :
    FastPredictionResult × Cache :=
  match getCachedPrediction cache (balancedKey input) t0 with
  | some cached => (cached, cache)
  | none =>
    match P.elo input.team1Id input.team2Id input.format with
    | Except.error _ => generateFastPrediction P cache input t0f dtf
    | Except.ok baseProbs =>
      match P.ml input ⟨baseProbs.team1WinProb, baseProbs.team2WinProb, baseProbs.drawProb⟩ with
      | Except.error _ => generateFastPrediction P cache input t0f dtf
      | Except.ok enhancedResult =>
          let result := mkBalancedResult input enhancedResult dt
          (result, cacheResult cache (balancedKey input) result (t0 + dt))

/-- The `timeConstraint` argument of `generateSmartPrediction`. -/
inductive TimeConstraint
  | fast
  | balanced
  | accurate
deriving DecidableEq

/-- The `isImportantMatch` test inside `generateSmartPrediction`:
`tournament` is probed for "world" and "final", `seriesContext` for
"final" and "semi" (case-insensitively, `undefined` being falsy). -/
def isImportantMatch (input : PredictionInput) : Bool :=
  optIncludes input.tournament "world" || optIncludes input.tournament "final" ||
  optIncludes input.seriesContext "final" || optIncludes input.seriesContext "semi"

/-- Operation `generateSmartPrediction`: `fast` and `accurate` force a tier; the
`balanced` constraint (also the default) falls into the importance
heuristic. -/
def generateSmartPrediction (P : Providers) (cache : Cache)
    (input : PredictionInput) (timeConstraint : TimeConstraint)
    (t0 dt t0f dtf : Int) : FastPredictionResult × Cache :=
  match timeConstraint with
  | TimeConstraint.fast => generateFastPrediction P cache input t0 dt
  | TimeConstraint.accurate => generateBalancedPrediction P cache input t0 dt t0f dtf
  | TimeConstraint.balanced =>
      if isImportantMatch input then
        generateBalancedPrediction P cache input t0 dt t0f dtf
      else
        generateFastPrediction P cache input t0 dt

/-- The `mode` argument of `predict`. -/
inductive PredictionMode
  | fast
  | balanced
  | smart
deriving DecidableEq

/-- Operation `predict`: dispatch on `mode`; `smart` calls `generateSmartPrediction`
with its default `timeConstraint` of `balanced`. -/
def predict (P : Providers) (cache : Cache) (input : PredictionInput)
    (mode : PredictionMode) (t0 dt t0f dtf : Int) :
    FastPredictionResult × Cache :=
  match mode with
  | PredictionMode.fast => generateFastPrediction P cache input t0 dt
  | PredictionMode.balanced => generateBalancedPrediction P cache input t0 dt t0f dtf
  | PredictionMode.smart =>
      generateSmartPrediction P cache input TimeConstraint.balanced t0 dt t0f dtf

/-- Operation `clearCache`. -/
def clearCache : Cache := []

/-- The record returned by `getCacheStats`. -/
structure CacheStats where
  size : Nat
  hitRate : Rat
deriving DecidableEq

/-- Operation `getCacheStats`: the stored size and a hard-coded `hitRate` of 0.85. -/
def getCacheStats (cache : Cache) : CacheStats :=
  ⟨cache.length, 0.85⟩

/-- A sequence of `cacheResult` insertions starting from the empty cache
(`op = (key, result, now)`). -/
def insertSeq (ops : List (String × FastPredictionResult × Int)) : Cache :=
  ops.foldl (fun c op => cacheResult c op.1 op.2.1 op.2.2) []

/-- The probability invariant of the spec, on a bare triple:
the three probabilities sum to within `[0.99, 1.01]` and each lies in
`[0, 1]`. -/
def probsValid (t1 t2 d : Rat) : Prop :=
  0.99 ≤ t1 + t2 + d ∧ t1 + t2 + d ≤ 1.01 ∧
  0 ≤ t1 ∧ t1 ≤ 1 ∧ 0 ≤ t2 ∧ t2 ≤ 1 ∧ 0 ≤ d ∧ d ≤ 1

/-- The probability invariant on a prediction result. -/
def probInvariant (r : FastPredictionResult) : Prop :=
  probsValid r.team1WinProb r.team2WinProb r.drawProb

/-- The output of the rating provider satisfies the probability invariant
(a missing `drawProb` counting as `0`). -/
def eloValid (e : EloResult) : Prop :=
  probsValid e.team1WinProb e.team2WinProb (e.drawProb.getD 0)

/-- The output of the feature provider satisfies the probability invariant
(a missing `enhancedDrawProb` counting as `0`). -/
def enhValid (x : EnhancedResult) : Prop :=
  probsValid x.enhancedTeam1WinProb x.enhancedTeam2WinProb
    (x.enhancedDrawProb.getD 0)

lemma getCachedPrediction_nil (k : String) (now : Int) :
    getCachedPrediction [] k now = none := rfl

lemma cacheResult_nil (k : String) (r : FastPredictionResult) (now : Int) :
    cacheResult [] k r now = [(k, ⟨r, now⟩)] := rfl

lemma jsOr_some (d x : Rat) : jsOr (some d) x = if d = 0 then x else d := rfl

lemma generateFastPrediction_nil_ok (P : Providers) (input : PredictionInput)
    (t0 dt : Int) (e : EloResult)
    (h : P.elo input.team1Id input.team2Id input.format = Except.ok e) :
    generateFastPrediction P [] input t0 dt =
      (mkFastResult input e dt,
        [(fastKey input, ⟨mkFastResult input e dt, t0 + dt⟩)]) := by
  unfold generateFastPrediction
  rw [getCachedPrediction_nil, h]
  rfl

lemma generateFastPrediction_nil_err (P : Providers) (input : PredictionInput)
    (t0 dt : Int) (u : Unit)
    (h : P.elo input.team1Id input.team2Id input.format = Except.error u) :
    generateFastPrediction P [] input t0 dt =
      (generateBasicFallback input dt, []) := by
  unfold generateFastPrediction
  rw [getCachedPrediction_nil, h]

lemma generateBalancedPrediction_nil_ok (P : Providers)
    (input : PredictionInput) (t0 dt t0f dtf : Int) (e : EloResult)
    (x : EnhancedResult)
    (he : P.elo input.team1Id input.team2Id input.format = Except.ok e)
    (hx : P.ml input ⟨e.team1WinProb, e.team2WinProb, e.drawProb⟩ = Except.ok x) :
    generateBalancedPrediction P [] input t0 dt t0f dtf =
      (mkBalancedResult input x dt,
        [(balancedKey input, ⟨mkBalancedResult input x dt, t0 + dt⟩)]) := by
  unfold generateBalancedPrediction
  rw [getCachedPrediction_nil, he]
  dsimp only
  rw [hx]
  rfl

lemma generateBalancedPrediction_elo_err (P : Providers)
    (input : PredictionInput) (cache : Cache) (t0 dt t0f dtf : Int) (u : Unit)
    (hm : getCachedPrediction cache (balancedKey input) t0 = none)
    (he : P.elo input.team1Id input.team2Id input.format = Except.error u) :
    generateBalancedPrediction P cache input t0 dt t0f dtf =
      generateFastPrediction P cache input t0f dtf := by
  unfold generateBalancedPrediction
  rw [hm, he]

lemma generateBalancedPrediction_ml_err (P : Providers)
    (input : PredictionInput) (cache : Cache) (t0 dt t0f dtf : Int)
    (e : EloResult) (u : Unit)
    (hm : getCachedPrediction cache (balancedKey input) t0 = none)
    (he : P.elo input.team1Id input.team2Id input.format = Except.ok e)
    (hx : P.ml input ⟨e.team1WinProb, e.team2WinProb, e.drawProb⟩ =
      Except.error u) :
    generateBalancedPrediction P cache input t0 dt t0f dtf =
      generateFastPrediction P cache input t0f dtf := by
  unfold generateBalancedPrediction
  rw [hm, he]
  dsimp only
  rw [hx]

lemma probInvariant_basicFallback (input : PredictionInput) (pt : Int) :
    probInvariant (generateBasicFallback input pt) := by
  unfold probInvariant generateBasicFallback probsValid
  norm_num

lemma probInvariant_mkFastResult (input : PredictionInput) (e : EloResult)
    (dt : Int) (hv : eloValid e) (d : Rat) (hd : e.drawProb = some d)
    (hdnz : d ≠ 0) : probInvariant (mkFastResult input e dt) := by
  unfold probInvariant mkFastResult probsValid
  dsimp only
  rw [hd, jsOr_some, if_neg hdnz]
  unfold eloValid probsValid at hv
  rw [hd] at hv
  simpa using hv

lemma probInvariant_mkBalancedResult (input : PredictionInput)
    (x : EnhancedResult) (dt : Int) (hv : enhValid x) (d : Rat)
    (hd : x.enhancedDrawProb = some d) (hdnz : d ≠ 0) :
    probInvariant (mkBalancedResult input x dt) := by
  unfold probInvariant mkBalancedResult probsValid
  dsimp only
  rw [hd, jsOr_some, if_neg hdnz]
  unfold enhValid probsValid at hv
  rw [hd] at hv
  simpa using hv

lemma probInvariant_fast_nil (P : Providers) (input : PredictionInput)
    (t0 dt : Int)
    (helo : ∀ e, P.elo input.team1Id input.team2Id input.format = Except.ok e →
      eloValid e ∧ ∃ d, e.drawProb = some d ∧ d ≠ 0) :
    probInvariant (generateFastPrediction P [] input t0 dt).1 := by
  cases h : P.elo input.team1Id input.team2Id input.format with
  | ok e =>
      obtain ⟨hv, d, hd, hdnz⟩ := helo e h
      rw [generateFastPrediction_nil_ok P input t0 dt e h]
      exact probInvariant_mkFastResult input e dt hv d hd hdnz
  | error u =>
      rw [generateFastPrediction_nil_err P input t0 dt u h]
      exact probInvariant_basicFallback input dt

/-- The importance predicate as the spec/claim words it (for comparison
with the implemented `isImportantMatch`): each vocabulary word "world",
"final", "semi" is matched case-insensitively against both `tournament`
and `seriesContext`. -/
def claimImportantMatch (input : PredictionInput) : Bool :=
  (["world", "final", "semi"] : List String).any fun w =>
    optIncludes input.tournament w || optIncludes input.seriesContext w

/-- A request with no importance markers at all. -/
def sampleInput : PredictionInput :=
  ⟨"ind", "aus", "India", "Australia", "MCG", "odi", 0, none, none⟩

/-- A request whose tournament text contains "world" and "final". -/
def worldCupInput : PredictionInput :=
  ⟨"ind", "aus", "India", "Australia", "MCG", "odi", 0,
    some "ICC World Cup Final", none⟩

/-- A request whose tournament text contains no importance marker. -/
def friendlyInput : PredictionInput :=
  ⟨"ind", "aus", "India", "Australia", "MCG", "t20", 0,
    some "Friendly T20", none⟩

/-- A request whose tournament text contains "semi" but neither "world"
nor "final", and whose series context is absent. -/
def semiInput : PredictionInput :=
  ⟨"ind", "aus", "India", "Australia", "MCG", "t20", 0,
    some "T20 Semi", none⟩

/-- A well-behaved rating-provider output. -/
def eloOk : EloResult := ⟨0.5, 0.48, some 0.02⟩

/-- A rating-provider output with an explicit draw probability of `0`. -/
def zeroDrawElo : EloResult := ⟨0.5, 0.5, some 0⟩

/-- A well-behaved feature-provider output. -/
def enhOk : EnhancedResult := ⟨0.5, 0.47, some 0.03, some 0.9, "ensemble-v2.1"⟩

/-- Providers that both succeed. -/
def okProviders : Providers :=
  ⟨fun _ _ _ => Except.ok eloOk, fun _ _ => Except.ok enhOk⟩

/-- Providers that both throw. -/
def failProviders : Providers :=
  ⟨fun _ _ _ => Except.error (), fun _ _ => Except.error ()⟩

/-- A rating provider returning a zero draw probability, feature provider
throwing. -/
def zeroDrawProviders : Providers :=
  ⟨fun _ _ _ => Except.ok zeroDrawElo, fun _ _ => Except.error ()⟩

/-- A succeeding rating provider with a throwing feature provider. -/
def mlFailProviders : Providers :=
  ⟨fun _ _ _ => Except.ok eloOk, fun _ _ => Except.error ()⟩

/-- C8 (confirmed): `generateBasicFallback` is a total (never-failing)
function of the input and the elapsed-time argument; it always returns
the fixed distribution 0.52/0.46/0.02 with confidence 0.60, an accuracy
estimate of 65 that is strictly below every accuracy constant of the two
real engines, and risk factors noting the degraded data availability. -/
theorem basicFallback_static (input : PredictionInput) (pt : Int) :
    (generateBasicFallback input pt).team1WinProb = 0.52 ∧
    (generateBasicFallback input pt).team2WinProb = 0.46 ∧
    (generateBasicFallback input pt).drawProb = 0.02 ∧
    (generateBasicFallback input pt).confidence = 0.60 ∧
    (generateBasicFallback input pt).accuracy = 65 ∧
    (∀ (e : EloResult) (dt : Int),
      (generateBasicFallback input pt).accuracy < (mkFastResult input e dt).accuracy) ∧
    (∀ (x : EnhancedResult) (dt : Int),
      (generateBasicFallback input pt).accuracy < (mkBalancedResult input x dt).accuracy) ∧
    (generateBasicFallback input pt).riskFactors =
      ["Limited data available", "Fallback prediction"] ∧
    (generateBasicFallback input pt).processingTimeMs = pt := by
  refine ⟨rfl, rfl, rfl, rfl, rfl, ?_, ?_, rfl, rfl⟩
  · intro e dt
    unfold generateBasicFallback mkFastResult
    dsimp only
    split
    · decide
    · split <;> decide
  · intro x dt
    unfold generateBasicFallback mkBalancedResult
    dsimp only
    split
    · decide
    · split <;> decide

/-- C10 (confirmed): `getCacheStats` reports the constant 0.85 as
`hitRate` whatever the cache contains (no hit/miss history is kept), and
its `size` counts every stored entry — including one whose TTL has
expired and which `getCachedPrediction` therefore treats as absent. -/
theorem cacheStats_report (cache : Cache) (k : String) (e : CacheEntry)
    (now : Int) (hmem : mapGet cache k = some e)
    (hexp : CACHE_TTL ≤ now - e.timestamp) :
    (getCacheStats cache).hitRate = 0.85 ∧
    (getCacheStats cache).size = cache.length ∧
    getCachedPrediction cache k now = none := by
  refine ⟨rfl, rfl, ?_⟩
  unfold getCachedPrediction
  rw [hmem]
  dsimp only
  rw [if_neg (not_lt.mpr hexp)]

/-- Witness for C10: a one-entry cache whose entry is exactly
`CACHE_TTL` old. -/
theorem cacheStats_report_witness :
    (getCacheStats [("k0", ⟨generateBasicFallback sampleInput 0, 0⟩)]).hitRate = 0.85 ∧
    (getCacheStats [("k0", ⟨generateBasicFallback sampleInput 0, 0⟩)]).size =
      ([("k0", ⟨generateBasicFallback sampleInput 0, 0⟩)] : Cache).length ∧
    getCachedPrediction [("k0", ⟨generateBasicFallback sampleInput 0, 0⟩)] "k0" 300000 = none :=
  cacheStats_report [("k0", ⟨generateBasicFallback sampleInput 0, 0⟩)] "k0"
    ⟨generateBasicFallback sampleInput 0, 0⟩ 300000 rfl (by decide)

/-- C6 (confirmed): when the feature provider fails deterministically for
the given input, the balanced tier returns exactly what the fast tier
returns on the same cache state (hence also its `engineUsed` and
`accuracy` fields), provided the balanced cache key does not hit. -/
theorem balanced_ml_failure_equals_fast (P : Providers) (cache : Cache)
    (input : PredictionInput) (t0 dt t0f dtf : Int)
    (hmiss : getCachedPrediction cache (balancedKey input) t0 = none)
    (hml : ∀ b, P.ml input b = Except.error ()) :
    generateBalancedPrediction P cache input t0 dt t0f dtf =
      generateFastPrediction P cache input t0f dtf := by
  cases he : P.elo input.team1Id input.team2Id input.format with
  | error u =>
      exact generateBalancedPrediction_elo_err P input cache t0 dt t0f dtf u hmiss he
  | ok e =>
      exact generateBalancedPrediction_ml_err P input cache t0 dt t0f dtf e ()
        hmiss he (hml _)

/-- Witness for C6: a succeeding rating provider with a throwing feature
provider, on the empty cache. -/
theorem balanced_ml_failure_equals_fast_witness :
    generateBalancedPrediction mlFailProviders [] sampleInput 0 0 0 0 =
      generateFastPrediction mlFailProviders [] sampleInput 0 0 :=
  balanced_ml_failure_equals_fast mlFailProviders [] sampleInput 0 0 0 0 rfl
    (fun _ => rfl)

/-- C2 counterexample: the claimed symmetric vocabulary is wrong — the
tournament text "T20 Semi" contains the marker "semi" (so the predicate
of the claim routes it to the balanced tier), yet `generateSmartPrediction`
with the default constraint produces the fast-tier computation, whose
engine differs from that of the balanced tier: the code only probes
`tournament` for "world"/"final" and `seriesContext` for "final"/"semi". -/
theorem smart_misses_semi_marker :
    claimImportantMatch semiInput = true ∧
    (generateSmartPrediction okProviders [] semiInput
        TimeConstraint.balanced 0 0 0 0).1 =
      (generateFastPrediction okProviders [] semiInput 0 0).1 ∧
    (generateSmartPrediction okProviders [] semiInput
        TimeConstraint.balanced 0 0 0 0).1.engineUsed = "Elo Rating System" ∧
    (generateBalancedPrediction okProviders [] semiInput 0 0 0 0).1.engineUsed =
      "Elo + ML Ensemble" ∧
    (generateSmartPrediction okProviders [] semiInput
        TimeConstraint.balanced 0 0 0 0).1 ≠
      (generateBalancedPrediction okProviders [] semiInput 0 0 0 0).1 := by
  refine ⟨by decide, rfl, by decide, by decide, ?_⟩
  intro h
  have h2 := congrArg FastPredictionResult.engineUsed h
  revert h2
  decide

/-- C2 (amended): with the default time constraint, `smart` routes to the
balanced tier iff the lower-cased `tournament` contains "world" or
"final", or the lower-cased `seriesContext` contains "final" or "semi";
otherwise it routes to the fast tier.  (The symmetric matching of
all three vocabulary words against both fields does not hold; the two
concrete examples of the claim — "ICC World Cup Final" to balanced,
"Friendly T20" to fast — are instances of this equation.) -/
theorem smart_default_routing (P : Providers) (cache : Cache)
    (input : PredictionInput) (t0 dt t0f dtf : Int) :
    generateSmartPrediction P cache input TimeConstraint.balanced t0 dt t0f dtf =
      if (optIncludes input.tournament "world" ||
          optIncludes input.tournament "final" ||
          optIncludes input.seriesContext "final" ||
          optIncludes input.seriesContext "semi") then
        generateBalancedPrediction P cache input t0 dt t0f dtf
      else
        generateFastPrediction P cache input t0 dt := rfl

/-- C4 counterexample: the `balanced` time constraint does not force
the balanced tier — it falls into the importance heuristic: on a request
without importance markers it produces the fast-tier computation, not the
balanced one. -/
theorem balanced_constraint_not_forcing :
    (generateSmartPrediction okProviders [] friendlyInput
        TimeConstraint.balanced 0 0 0 0).1 =
      (generateFastPrediction okProviders [] friendlyInput 0 0).1 ∧
    (generateSmartPrediction okProviders [] friendlyInput
        TimeConstraint.balanced 0 0 0 0).1.engineUsed = "Elo Rating System" ∧
    (generateSmartPrediction okProviders [] friendlyInput
        TimeConstraint.balanced 0 0 0 0).1 ≠
      (generateBalancedPrediction okProviders [] friendlyInput 0 0 0 0).1 := by
  refine ⟨rfl, by decide, ?_⟩
  intro h
  have h2 := congrArg FastPredictionResult.engineUsed h
  revert h2
  decide

/-- C4 (amended): a `timeConstraint` of `fast` forces exactly the fast-tier
computation and `accurate` forces exactly the balanced-tier
computation; `balanced` (the default) does not force a tier but applies
the tournament/seriesContext importance heuristic. -/
theorem timeConstraint_forcing (P : Providers) (cache : Cache)
    (input : PredictionInput) (t0 dt t0f dtf : Int) :
    generateSmartPrediction P cache input TimeConstraint.fast t0 dt t0f dtf =
      generateFastPrediction P cache input t0 dt ∧
    generateSmartPrediction P cache input TimeConstraint.accurate t0 dt t0f dtf =
      generateBalancedPrediction P cache input t0 dt t0f dtf :=
  ⟨rfl, rfl⟩

/-- C1 counterexample: a rating-provider output with probabilities
0.5/0.5/0 satisfies the probability invariant, yet the fast-tier result
violates it: the `|| 0.02` default replaces the zero draw probability
with 0.02 and the sum becomes 1.02 > 1.01. -/
theorem fast_zero_draw_breaks_invariant :
    eloValid zeroDrawElo ∧
    ¬ probInvariant (generateFastPrediction zeroDrawProviders [] sampleInput 0 0).1 := by
  constructor
  · unfold eloValid zeroDrawElo probsValid
    dsimp only [Option.getD]
    norm_num
  · rw [generateFastPrediction_nil_ok zeroDrawProviders sampleInput 0 0 zeroDrawElo rfl]
    unfold probInvariant mkFastResult probsValid zeroDrawElo
    dsimp only
    rw [jsOr_some, if_pos rfl]
    rintro ⟨-, h, -⟩
    norm_num at h

/-- C1 (amended): for every provider behaviour in which a successful
rating result satisfies the probability invariant and carries an explicit
non-zero draw probability, and likewise for a successful feature result,
the fast tier, the balanced tier and the static fallback all satisfy
`team1WinProb + team2WinProb + drawProb ∈ [0.99, 1.01]` with each term in
`[0, 1]` (starting from an empty cache).  Without the non-zero-draw
proviso the `|| 0.02` defaulting can push the sum to 1.02 (see the
counterexample). -/
theorem tier_outputs_satisfy_invariant (P : Providers)
    (input : PredictionInput) (t0 dt t0f dtf pt : Int)
    (helo : ∀ e, P.elo input.team1Id input.team2Id input.format = Except.ok e →
      eloValid e ∧ ∃ d, e.drawProb = some d ∧ d ≠ 0)
    (hml : ∀ b x, P.ml input b = Except.ok x →
      enhValid x ∧ ∃ d, x.enhancedDrawProb = some d ∧ d ≠ 0) :
    probInvariant (generateFastPrediction P [] input t0 dt).1 ∧
    probInvariant (generateBalancedPrediction P [] input t0 dt t0f dtf).1 ∧
    probInvariant (generateBasicFallback input pt) := by
  refine ⟨probInvariant_fast_nil P input t0 dt helo, ?_,
    probInvariant_basicFallback input pt⟩
  cases he : P.elo input.team1Id input.team2Id input.format with
  | error u =>
      rw [generateBalancedPrediction_elo_err P input [] t0 dt t0f dtf u
        (getCachedPrediction_nil _ _) he]
      exact probInvariant_fast_nil P input t0f dtf helo
  | ok e =>
      cases hx : P.ml input ⟨e.team1WinProb, e.team2WinProb, e.drawProb⟩ with
      | error u =>
          rw [generateBalancedPrediction_ml_err P input [] t0 dt t0f dtf e u
            (getCachedPrediction_nil _ _) he hx]
          exact probInvariant_fast_nil P input t0f dtf helo
      | ok x =>
          obtain ⟨hv, d, hd, hdnz⟩ := hml _ x hx
          rw [generateBalancedPrediction_nil_ok P input t0 dt t0f dtf e x he hx]
          exact probInvariant_mkBalancedResult input x dt hv d hd hdnz

/-- Witness for C1 (amended): both providers succeed with valid
probabilities and non-zero draw probabilities. -/
theorem tier_outputs_satisfy_invariant_witness :
    probInvariant (generateFastPrediction okProviders [] sampleInput 0 0).1 ∧
    probInvariant (generateBalancedPrediction okProviders [] sampleInput 0 0 0 0).1 ∧
    probInvariant (generateBasicFallback sampleInput 0) := by
  apply tier_outputs_satisfy_invariant
  · intro e h
    obtain rfl : eloOk = e := Except.ok.inj h
    refine ⟨?_, 0.02, rfl, by norm_num⟩
    unfold eloValid eloOk probsValid
    dsimp only [Option.getD]
    norm_num
  · intro b x h
    obtain rfl : enhOk = x := Except.ok.inj h
    refine ⟨?_, 0.03, rfl, by norm_num⟩
    unfold enhValid enhOk probsValid
    dsimp only [Option.getD]
    norm_num

lemma mapGet_single (k : String) (e : CacheEntry) :
    mapGet [(k, e)] k = some e := by
  unfold mapGet
  rw [List.find?_cons_of_pos _ (by simp)]
  rfl

lemma getCachedPrediction_single_hit (k : String) (r : FastPredictionResult)
    (ts now : Int) (h : now - ts < CACHE_TTL) :
    getCachedPrediction [(k, ⟨r, ts⟩)] k now =
      some { r with fromCache := true } := by
  unfold getCachedPrediction
  rw [mapGet_single]
  dsimp only
  rw [if_pos h]

lemma getCachedPrediction_single_miss (k : String) (r : FastPredictionResult)
    (ts now : Int) (h : CACHE_TTL ≤ now - ts) :
    getCachedPrediction [(k, ⟨r, ts⟩)] k now = none := by
  unfold getCachedPrediction
  rw [mapGet_single]
  dsimp only
  rw [if_neg (not_lt.mpr h)]

lemma generateFastPrediction_hit (P : Providers) (input : PredictionInput)
    (r : FastPredictionResult) (ts now dt : Int)
    (h : now - ts < CACHE_TTL) :
    generateFastPrediction P [(fastKey input, ⟨r, ts⟩)] input now dt =
      ({ r with fromCache := true }, [(fastKey input, ⟨r, ts⟩)]) := by
  unfold generateFastPrediction
  rw [getCachedPrediction_single_hit _ _ _ _ h]

lemma generateFastPrediction_expired_fst (P : Providers)
    (input : PredictionInput) (r : FastPredictionResult) (ts now dt : Int)
    (h : CACHE_TTL ≤ now - ts) :
    (generateFastPrediction P [(fastKey input, ⟨r, ts⟩)] input now dt).1 =
      (generateFastPrediction P [] input now dt).1 := by
  unfold generateFastPrediction
  rw [getCachedPrediction_single_miss _ _ _ _ h, getCachedPrediction_nil]
  cases P.elo input.team1Id input.team2Id input.format <;> rfl

lemma generateBalancedPrediction_hit (P : Providers) (input : PredictionInput)
    (r : FastPredictionResult) (ts now dt t0f dtf : Int)
    (h : now - ts < CACHE_TTL) :
    generateBalancedPrediction P [(balancedKey input, ⟨r, ts⟩)] input now dt t0f dtf =
      ({ r with fromCache := true }, [(balancedKey input, ⟨r, ts⟩)]) := by
  unfold generateBalancedPrediction
  rw [getCachedPrediction_single_hit _ _ _ _ h]

/-- C3 (confirmed): `predict` is a total function — modelling the
public contract that it never raises — and when both providers throw it
returns the static fallback (computed at the elapsed time of whichever
tier ran last), whose accuracy 65 is below 70 and whose risk-factor list
is non-empty, for every mode and every input, on the empty cache. -/
theorem predict_total_fallback (P : Providers) (input : PredictionInput)
    (mode : PredictionMode) (t0 dt t0f dtf : Int)
    (helo : ∀ a b c, P.elo a b c = Except.error ())
    (hml : ∀ i b, P.ml i b = Except.error ()) :
    ((predict P [] input mode t0 dt t0f dtf).1 = generateBasicFallback input dt ∨
     (predict P [] input mode t0 dt t0f dtf).1 = generateBasicFallback input dtf) ∧
    (predict P [] input mode t0 dt t0f dtf).1.accuracy < 70 ∧
    (predict P [] input mode t0 dt t0f dtf).1.riskFactors ≠ [] := by
  have hfast : ∀ ta da : Int, generateFastPrediction P [] input ta da =
      (generateBasicFallback input da, []) := fun ta da =>
    generateFastPrediction_nil_err P input ta da () (helo _ _ _)
  have hbal : generateBalancedPrediction P [] input t0 dt t0f dtf =
      (generateBasicFallback input dtf, []) := by
    rw [generateBalancedPrediction_elo_err P input [] t0 dt t0f dtf ()
      (getCachedPrediction_nil _ _) (helo _ _ _)]
    exact hfast t0f dtf
  have hres : (predict P [] input mode t0 dt t0f dtf).1 =
      generateBasicFallback input dt ∨
      (predict P [] input mode t0 dt t0f dtf).1 =
      generateBasicFallback input dtf := by
    cases mode with
    | fast =>
        left
        unfold predict
        rw [hfast t0 dt]
    | balanced =>
        right
        unfold predict
        rw [hbal]
    | smart =>
        unfold predict generateSmartPrediction
        dsimp only
        by_cases him : isImportantMatch input = true
        · right
          rw [if_pos him, hbal]
        · left
          rw [if_neg him, hfast t0 dt]
  refine ⟨hres, ?_, ?_⟩
  · rcases hres with h | h <;> rw [h] <;> norm_num [generateBasicFallback]
  · rcases hres with h | h <;> rw [h] <;> simp [generateBasicFallback]

/-- Witness for C3: both providers throw; smart mode on a plain input. -/
theorem predict_total_fallback_witness :
    ((predict failProviders [] sampleInput PredictionMode.smart 0 0 0 0).1 =
        generateBasicFallback sampleInput 0 ∨
     (predict failProviders [] sampleInput PredictionMode.smart 0 0 0 0).1 =
        generateBasicFallback sampleInput 0) ∧
    (predict failProviders [] sampleInput PredictionMode.smart 0 0 0 0).1.accuracy < 70 ∧
    (predict failProviders [] sampleInput PredictionMode.smart 0 0 0 0).1.riskFactors ≠ [] :=
  predict_total_fallback failProviders sampleInput PredictionMode.smart 0 0 0 0
    (fun _ _ _ => rfl) (fun _ _ => rfl)

/-- C5 (confirmed): after a successful first tier call, a second call to
the same tier with identical input strictly inside the 5-minute TTL
returns a result identical to the first in every field except
`fromCache = true` (the fresh result has `fromCache = false`), and leaves
the cache untouched; a call at or past TTL expiry is a miss and
recomputes — it returns exactly what a fresh (empty-cache) computation at
that time returns.  Shown for both the fast and the balanced tier. -/
theorem cached_call_roundtrip (P : Providers) (input : PredictionInput)
    (e : EloResult) (x : EnhancedResult) (t0 dt t1 dt1 t2 dt2 t0f dtf : Int)
    (he : P.elo input.team1Id input.team2Id input.format = Except.ok e)
    (hx : P.ml input ⟨e.team1WinProb, e.team2WinProb, e.drawProb⟩ = Except.ok x)
    (hfresh : t1 - (t0 + dt) < CACHE_TTL)
    (hexp : CACHE_TTL ≤ t2 - (t0 + dt)) :
    ((generateFastPrediction P (generateFastPrediction P [] input t0 dt).2 input t1 dt1).1 =
       { (generateFastPrediction P [] input t0 dt).1 with fromCache := true } ∧
     (generateFastPrediction P (generateFastPrediction P [] input t0 dt).2 input t1 dt1).2 =
       (generateFastPrediction P [] input t0 dt).2 ∧
     (generateFastPrediction P [] input t0 dt).1.fromCache = false ∧
     (generateFastPrediction P (generateFastPrediction P [] input t0 dt).2 input t2 dt2).1 =
       (generateFastPrediction P [] input t2 dt2).1) ∧
    ((generateBalancedPrediction P
        (generateBalancedPrediction P [] input t0 dt t0f dtf).2 input t1 dt1 t0f dtf).1 =
       { (generateBalancedPrediction P [] input t0 dt t0f dtf).1 with fromCache := true } ∧
     (generateBalancedPrediction P [] input t0 dt t0f dtf).1.fromCache = false) := by
  have h1 := generateFastPrediction_nil_ok P input t0 dt e he
  have h1b := generateBalancedPrediction_nil_ok P input t0 dt t0f dtf e x he hx
  constructor
  · refine ⟨?_, ?_, ?_, ?_⟩
    · rw [h1, generateFastPrediction_hit P input _ _ _ _ hfresh]
    · rw [h1, generateFastPrediction_hit P input _ _ _ _ hfresh]
    · rw [h1]
      rfl
    · rw [h1, generateFastPrediction_expired_fst P input _ _ _ _ hexp]
  · refine ⟨?_, ?_⟩
    · rw [h1b, generateBalancedPrediction_hit P input _ _ _ _ _ _ hfresh]
    · rw [h1b]
      rfl

/-- Witness for C5: both providers succeed; the second call happens 1 ms
after caching, the third exactly at TTL expiry. -/
theorem cached_call_roundtrip_witness :
    ((generateFastPrediction okProviders
        (generateFastPrediction okProviders [] sampleInput 0 0).2 sampleInput 1 0).1 =
       { (generateFastPrediction okProviders [] sampleInput 0 0).1 with fromCache := true } ∧
     (generateFastPrediction okProviders
        (generateFastPrediction okProviders [] sampleInput 0 0).2 sampleInput 1 0).2 =
       (generateFastPrediction okProviders [] sampleInput 0 0).2 ∧
     (generateFastPrediction okProviders [] sampleInput 0 0).1.fromCache = false ∧
     (generateFastPrediction okProviders
        (generateFastPrediction okProviders [] sampleInput 0 0).2 sampleInput 300000 0).1 =
       (generateFastPrediction okProviders [] sampleInput 300000 0).1) ∧
    ((generateBalancedPrediction okProviders
        (generateBalancedPrediction okProviders [] sampleInput 0 0 0 0).2 sampleInput 1 0 0 0).1 =
       { (generateBalancedPrediction okProviders [] sampleInput 0 0 0 0).1 with fromCache := true } ∧
     (generateBalancedPrediction okProviders [] sampleInput 0 0 0 0).1.fromCache = false) :=
  cached_call_roundtrip okProviders sampleInput eloOk enhOk 0 0 1 0 300000 0 0 0
    rfl rfl (by decide) (by decide)

lemma mapSet_length_le (m : Cache) (k : String) (v : CacheEntry) :
    (mapSet m k v).length ≤ m.length + 1 := by
  unfold mapSet
  split
  · rw [List.length_map]
    omega
  · rw [List.length_append]
    simp

lemma mapDelete_cons_self_length (a : String × CacheEntry) (tl : Cache) :
    (mapDelete (a :: tl) a.1).length ≤ tl.length := by
  unfold mapDelete
  rw [List.filter_cons]
  have hne : (a.1 != a.1) = false := by simp
  rw [hne]
  simpa using List.length_filter_le _ tl

lemma cacheResult_length_le (m : Cache) (k : String)
    (r : FastPredictionResult) (now : Int) (h : m.length ≤ 100) :
    (cacheResult m k r now).length ≤ 100 := by
  unfold cacheResult
  dsimp only
  have hle := mapSet_length_le m k ⟨r, now⟩
  split
  · next h100 =>
      cases hc : mapSet m k ⟨r, now⟩ with
      | nil =>
          show (([] : Cache)).length ≤ 100
          simp
      | cons a tl =>
          show (mapDelete (a :: tl) a.1).length ≤ 100
          have hd := mapDelete_cons_self_length a tl
          rw [hc] at hle
          simp only [List.length_cons] at hle
          omega
  · next h100 =>
      omega

/-- C7 (confirmed): across every sequence of `cacheResult` insertions
starting from the empty cache, the cache never holds more than 100
entries once an insertion completes (the capacity check evicts one entry
whenever the map grows past 100). -/
theorem cache_size_bounded (ops : List (String × FastPredictionResult × Int)) :
    (insertSeq ops).length ≤ 100 := by
  have gen : ∀ (l : List (String × FastPredictionResult × Int)) (c : Cache),
      c.length ≤ 100 →
      (l.foldl (fun c op => cacheResult c op.1 op.2.1 op.2.2) c).length ≤ 100 := by
    intro l
    induction l with
    | nil => intro c h; exact h
    | cons a tl ih =>
        intro c h
        exact ih _ (cacheResult_length_le _ _ _ _ h)
  exact gen ops [] (by simp)

/-- C9 (confirmed): when an insertion overflows a full 100-entry cache
with a fresh key, the evicted entry is exactly the head of the iteration
order of the map — the earliest-inserted entry still present (FIFO): the
new cache is the old one minus its first entry plus the new entry
appended at the end.  A cache read leaves the cache unchanged (it never
re-orders entries), so the policy is not least-recently-used. -/
theorem fifo_eviction (e0 : String × CacheEntry) (rest : Cache) (k : String)
    (r : FastPredictionResult) (t : Int) (P : Providers)
    (input : PredictionInput) (t0 dt : Int) (res : FastPredictionResult)
    (hlen : rest.length = 99)
    (hfresh : ∀ p ∈ e0 :: rest, p.1 ≠ k)
    (hhead : ∀ p ∈ rest, p.1 ≠ e0.1)
    (hhit : getCachedPrediction (e0 :: rest) (fastKey input) t0 = some res) :
    cacheResult (e0 :: rest) k r t = rest ++ [(k, ⟨r, t⟩)] ∧
    (generateFastPrediction P (e0 :: rest) input t0 dt).2 = e0 :: rest := by
  constructor
  · have hany : ((e0 :: rest).any fun p => p.1 == k) = false := by
      rw [List.any_eq_false]
      intro p hp
      simpa using hfresh p hp
    have hset : mapSet (e0 :: rest) k ⟨r, t⟩ = e0 :: (rest ++ [(k, ⟨r, t⟩)]) := by
      unfold mapSet
      rw [hany]
      simp
    unfold cacheResult
    dsimp only
    rw [hset]
    have hlen2 : (e0 :: (rest ++ [(k, ⟨r, t⟩)])).length = 101 := by
      simp [hlen]
    rw [if_pos (by rw [hlen2]; omega)]
    show mapDelete (e0 :: (rest ++ [(k, ⟨r, t⟩)])) e0.1 = rest ++ [(k, ⟨r, t⟩)]
    unfold mapDelete
    rw [List.filter_cons]
    have hne : (e0.1 != e0.1) = false := by simp
    rw [hne]
    rw [if_neg (by simp)]
    apply List.filter_eq_self.mpr
    intro p hp
    rcases List.mem_append.mp hp with hp | hp
    · simpa using hhead p hp
    · have : p = (k, (⟨r, t⟩ : CacheEntry)) := by simpa using hp
      subst this
      simpa using (hfresh e0 (List.mem_cons_self e0 rest)).symm
  · unfold generateFastPrediction
    rw [hhit]

/-- The cache entry used to populate the witness cache for C9. -/
def witnessEntry : CacheEntry := ⟨generateBasicFallback sampleInput 0, 0⟩

/-- Ninety-nine filler entries with pairwise-irrelevant keys made of repeated
lowercase letters. -/
def restCache : Cache :=
  (List.range 99).map fun i => (String.mk (List.replicate (i + 1) 'x'), witnessEntry)

/-- Witness for C9: a full cache whose head is a hit for the fast key of
`sampleInput`; inserting the fresh key "newkey" evicts exactly the head. -/
theorem fifo_eviction_witness :
    cacheResult ((fastKey sampleInput, witnessEntry) :: restCache) "newkey"
        (generateBasicFallback sampleInput 0) 5 =
      restCache ++ [("newkey", ⟨generateBasicFallback sampleInput 0, 5⟩)] ∧
    (generateFastPrediction okProviders
        ((fastKey sampleInput, witnessEntry) :: restCache) sampleInput 0 0).2 =
      (fastKey sampleInput, witnessEntry) :: restCache :=
  fifo_eviction (fastKey sampleInput, witnessEntry) restCache "newkey"
    (generateBasicFallback sampleInput 0) 5 okProviders sampleInput 0 0
    { generateBasicFallback sampleInput 0 with fromCache := true }
    (by decide) (by decide) (by decide) rfl

end OptimizedCricketPredictor

end TelegramCricketBot
